import Mathlib

/-!
Shallow embedding of the smart-scale prototype (TypeScript) for verification.

The decoder `parseScaleData`, the unit-conversion utility `convertWeight`,
the nutrition pipeline `getNutritionData`, the reading classifier of the
`ScaleConnector` component (`handleCharacteristicValueChanged`), and the
component's connect/disconnect lifecycle are translated here.

Modelling conventions:
* a notification frame (JS `DataView`) is a `List ℕ` of byte values;
* JS numbers are `ℚ`; `NaN` (and `undefined` flowing into arithmetic) is
  modelled as `none` in `Option ℚ`, with `NaN`-propagating operations;
* a `DataView` access that is out of range throws `RangeError`; this is
  modelled as `Except.error ()`, and the source's `try`/`catch` blocks are
  explicit `match`es on the `Except` value;
* `Date.now()` is an explicit `now : ℕ` argument supplied per invocation.
-/

namespace SmartScale

/-- The unit strings of `ScaleReading.unit`: "g" | "oz" | "lb" | "kg" | "ml" | "fl oz". -/
inductive ScaleUnit where
  | g
  | oz
  | lb
  | kg
  | ml
  | floz
deriving DecidableEq

/-- `ScaleReading` from `types/scale.ts`: weight, unit, isStable, timestamp. -/
structure ScaleReading where
  weight : ℚ
  unit : ScaleUnit
  isStable : Bool
  timestamp : ℕ
deriving DecidableEq

/-- A reading before the timestamp is attached (each return site in
`parseScaleData` sets `timestamp: Date.now()` on an otherwise already
computed weight/unit/isStable triple). -/
structure ReadingCore where
  weight : ℚ
  unit : ScaleUnit
  isStable : Bool
deriving DecidableEq

/-- Attach the decode-time clock value, as `timestamp: Date.now()` does. -/
def ReadingCore.withTime (c : ReadingCore) (now : ℕ) : ScaleReading :=
  ⟨c.weight, c.unit, c.isStable, now⟩

/-- `UNIT_MAP` from `scaleUtils`: the 7-entry unit-code record; keys 0-6,
anything else is absent (`undefined`). -/
def UNIT_MAP : ℕ → Option ScaleUnit
  | 0 => some ScaleUnit.g
  | 1 => some ScaleUnit.oz
  | 2 => some ScaleUnit.g
  | 3 => some ScaleUnit.floz
  | 4 => some ScaleUnit.ml
  | 5 => some ScaleUnit.floz
  | 6 => some ScaleUnit.oz
  | _ => none

/-- `DataView.getUint8`: one byte, `RangeError` out of range. -/
def getUint8 (bs : List ℕ) (i : ℕ) : Except Unit ℕ :=
  match bs[i]? with
  | some b => Except.ok b
  | none => Except.error ()

/-- `DataView.getUint16(i, true)`: 16-bit little-endian, `RangeError` if the
two bytes at `i`, `i+1` are not all inside the view. -/
def getUint16le (bs : List ℕ) (i : ℕ) : Except Unit ℕ :=
  match bs[i]?, bs[i+1]? with
  | some lo, some hi => Except.ok (lo + 256 * hi)
  | _, _ => Except.error ()

/-- `DataView.getUint16(i, false)`: 16-bit big-endian, `RangeError` if the
two bytes at `i`, `i+1` are not all inside the view. -/
def getUint16be (bs : List ℕ) (i : ℕ) : Except Unit ℕ :=
  match bs[i]?, bs[i+1]? with
  | some hi, some lo => Except.ok (256 * hi + lo)
  | _, _ => Except.error ()

/-- Method 1 of `parseScaleData` ("original Luminary-style parsing"):
sign byte at offset 10, 16-bit little-endian magnitude at offset 11, unit
byte at offset 14 when the frame is longer than 14 bytes (else code 0),
accepted when `0 < rawWeight < 50000`. The surrounding `try { } catch { }`
is applied in `method1Caught`. -/
def method1E (bs : List ℕ) : Except Unit (Option ReadingCore) :=
  match getUint8 bs 10 with
  | Except.error e => Except.error e
  | Except.ok sb =>
    let sign : ℤ := if sb = 0 then 1 else -1
    match getUint16le bs 11 with
    | Except.error e => Except.error e
    | Except.ok rawWeight =>
      match (if 14 < bs.length then getUint8 bs 14 else Except.ok 0) with
      | Except.error e => Except.error e
      | Except.ok unitCode =>
        let isStable := true
        if 0 < rawWeight ∧ rawWeight < 50000 then
          let u := (UNIT_MAP unitCode).getD ScaleUnit.g
          let weight : ℚ := ((sign : ℚ) * (rawWeight : ℚ)) / (if unitCode = 2 then 10 else 1)
          Except.ok (some ⟨weight, u, isStable⟩)
        else
          Except.ok none

/-- Method 1 with its `catch (e) { }` handler: an exception falls through to
Method 2 exactly like a magnitude outside the accepted range. -/
def method1Caught (bs : List ℕ) : Option ReadingCore :=
  match method1E bs with
  | Except.ok r => r
  | Except.error _ => none

/-- One iteration of the Method 2 scan of `parseScaleData` at a given
offset: big-endian 16-bit value at `offset`, candidate unit byte at
`offset+2` (0 when out of range), sign from the byte before the offset
(positive at offset 0), stability byte at `offset+3` (stable when out of
range), divide by 10 for unit code 2 or codes ≥ 3, accept when the signed
weight lies in `(0, 5000]`. -/
def method2At (bs : List ℕ) (offset : ℕ) : Except Unit (Option ReadingCore) :=
  match getUint16be bs offset with
  | Except.error e => Except.error e
  | Except.ok rawWeight =>
    match (if offset + 2 < bs.length then getUint8 bs (offset + 2) else Except.ok 0) with
    | Except.error e => Except.error e
    | Except.ok nextByte =>
      if 0 < rawWeight ∧ rawWeight < 10000 ∧ nextByte ≤ 6 then
        let signE : Except Unit ℤ :=
          if 0 < offset then
            match getUint8 bs (offset - 1) with
            | Except.error e => Except.error e
            | Except.ok p => Except.ok (if p = 0 then 1 else -1)
          else
            Except.ok 1
        match signE with
        | Except.error e => Except.error e
        | Except.ok sign =>
          let unitCode := nextByte
          let stableE : Except Unit Bool :=
            if offset + 3 < bs.length then
              match getUint8 bs (offset + 3) with
              | Except.error e => Except.error e
              | Except.ok s => Except.ok (decide (s = 1))
            else
              Except.ok true
          match stableE with
          | Except.error e => Except.error e
          | Except.ok isStable =>
            let u := (UNIT_MAP unitCode).getD ScaleUnit.g
            let divisor : ℚ := if unitCode = 2 ∨ 3 ≤ unitCode then 10 else 1
            let weight : ℚ := ((sign : ℚ) * (rawWeight : ℚ)) / divisor
            if 0 < weight ∧ weight ≤ 5000 then
              Except.ok (some ⟨weight, u, isStable⟩)
            else
              Except.ok none
      else
        Except.ok none

/-- One scan iteration with its per-offset `catch`: an exception means
"continue to next offset", exactly like a rejected candidate. -/
def method2AtCaught (bs : List ℕ) (offset : ℕ) : Option ReadingCore :=
  match method2At bs offset with
  | Except.ok r => r
  | Except.error _ => none

/-- The Method 2 `for` loop over a list of offsets: return at the first
offset whose candidate is accepted. -/
def method2Scan (bs : List ℕ) : List ℕ → Option ReadingCore
  | [] => none
  | offset :: rest =>
    match method2AtCaught bs offset with
    | some r => some r
    | none => method2Scan bs rest

/-- Method 2 of `parseScaleData`: scan offsets `0 ≤ offset ≤ byteLength - 4`. -/
def method2 (bs : List ℕ) : Option ReadingCore :=
  method2Scan bs (List.range (bs.length - 4 + 1))

/-- The body of the outer `try` of `parseScaleData`: 8-byte frames carry no
weight; 12-byte frames try Method 1 (under its `byteLength >= 12` guard)
then Method 2; any other length falls through to `return null`. -/
def decodeBody (bs : List ℕ) (now : ℕ) : Except Unit (Option ScaleReading) :=
  if bs.length = 8 then
    Except.ok none
  else if bs.length = 12 then
    match (if 12 ≤ bs.length then method1Caught bs else none) with
    | some c => Except.ok (some (c.withTime now))
    | none =>
      match method2 bs with
      | some c => Except.ok (some (c.withTime now))
      | none => Except.ok none
  else
    Except.ok none

/-- `parseScaleData` from `scaleUtils`: frames shorter than 3 bytes are
rejected before the `try`; the outer `catch (error) { return null }` maps
any escaped exception to `null`. -/
def parseScaleData (bs : List ℕ) (now : ℕ) : Option ScaleReading :=
  if bs.length < 3 then
    none
  else
    match decodeBody bs now with
    | Except.ok r => r
    | Except.error _ => none

/-- The timestamp-free result of `parseScaleData`: the decoder's control
flow with the clock factored out (each accepting return site in the source
attaches `Date.now()` to exactly this value). -/
def coreResult (bs : List ℕ) : Option ReadingCore :=
  if bs.length = 8 then
    none
  else if bs.length = 12 then
    match (if 12 ≤ bs.length then method1Caught bs else none) with
    | some c => some c
    | none => method2 bs
  else
    none

/-! Concrete frames used to settle the claims. -/

/-- 12-byte frame shaped after the Strategy A acceptance test: sign byte
`0x00` at offset 10, and the low byte `0xDC` of the little-endian magnitude
`1500 = 0x05DC` at offset 11 — the high byte would sit at offset 12, past
the end of the frame. -/
def frameA : List ℕ := [0, 0, 0, 0, 0, 0, 0, 0, 0, 0, 0, 0xDC]

/-- 12-byte frame whose Method 2 scan finds the big-endian raw value
`0x1388 = 5000` at offset 0 with unit code 0 and stability byte 1. -/
def frame5000 : List ℕ := [0x13, 0x88, 0, 1, 0, 0, 0, 0, 0, 0, 0, 0]

/-- 12-byte frame whose Method 2 scan sees the big-endian raw value
`0x2710 = 10000` at offset 0 and nothing acceptable at any other offset. -/
def frame10000 : List ℕ := [0x27, 0x10, 0, 0, 0, 0, 0, 0, 0, 0, 0, 0]

/-- An empty-scale heartbeat frame (8 bytes). -/
def frame8 : List ℕ := [0, 0, 0, 0, 0, 0, 0, 0]

/-!
Reading classifier: the `handleCharacteristicValueChanged` callback of the
`ScaleConnector` component.

The callback is produced by `useCallback` with deps
`[lastStableReading, onStableReading]` and attached to the characteristic
exactly once, inside `connectToScaleDevice`.  When `setLastStableReading`
later changes the dep, `useCallback` yields a new closure, but nothing
re-attaches it — the only `useEffect` is the empty-deps unmount cleanup.
The listener that actually runs therefore holds, for the whole
subscription, the `lastStableReading` value of the render in which it was
attached (`null` on a fresh connect).  The model keeps that closure
snapshot as an explicit `captured` argument, fixed across invocations,
distinct from the state cells that the callback's setters write: the
setters do update the cells, but the attached closure never reads them
again.
-/

/-- The `useState` cells the callback's setters write.  The attached
callback reads only its `captured` snapshot, never these cells. -/
structure ClassifierState where
  currentReading : Option ScaleReading
  lastStableReading : Option ScaleReading
deriving DecidableEq

/-- Component state at mount: both `useState` initial values are `null`. -/
def initialClassifierState : ClassifierState := ⟨none, none⟩

/-- The dedup condition of the callback:
`!lastStableReading || lastStableReading.weight !== reading.weight ||
lastStableReading.unit !== reading.unit`, evaluated on the closure's
captured `lastStableReading`. -/
def keyDiffers (last : Option ScaleReading) (reading : ScaleReading) : Bool :=
  match last with
  | none => true
  | some l => decide (l.weight ≠ reading.weight) || decide (l.unit ≠ reading.unit)

/-- The body of the callback after a successful parse: always update the
`currentReading` cell; when the reading is stable and its `(weight, unit)`
key differs from the closure-captured `lastStableReading` snapshot, write
the `lastStableReading` cell and call `onStableReading`.  `captured` is the
snapshot the attached listener closed over at attach time; it is not
refreshed by the `setLastStableReading` call. -/
def observeReading (captured : Option ScaleReading) (st : ClassifierState)
    (reading : ScaleReading) : ClassifierState × Option ScaleReading :=
  let st1 : ClassifierState := { st with currentReading := some reading }
  if reading.isStable && keyDiffers captured reading then
    ({ st1 with lastStableReading := some reading }, some reading)
  else
    (st1, none)

/-- `handleCharacteristicValueChanged`: missing `characteristic.value` or a
failed parse leave the state untouched and fire nothing. -/
def handleCharacteristicValueChanged (captured : Option ScaleReading)
    (st : ClassifierState) (data : Option (List ℕ)) (now : ℕ) :
    ClassifierState × Option ScaleReading :=
  match data with
  | none => (st, none)
  | some bs =>
    match parseScaleData bs now with
    | none => (st, none)
    | some reading => observeReading captured st reading

/-- Feed a list of readings through the attached listener, collecting the
`onStableReading` calls in order: the state cells are threaded from
invocation to invocation, but every invocation runs the same closure with
the same captured snapshot, because the listener is never re-attached. -/
def runClassifier (captured : Option ScaleReading) (st : ClassifierState) :
    List ScaleReading → ClassifierState × List ScaleReading
  | [] => (st, [])
  | r :: rs =>
    let step := observeReading captured st r
    let rest := runClassifier captured step.1 rs
    (rest.1, step.2.toList ++ rest.2)

/-!
Connection lifecycle of the `ScaleConnector` component: the component state
touched by `connectToScaleDevice`, `disconnect` and the
`gattserverdisconnected` listener, with the transport's asynchronous
outcomes supplied as an explicit oracle and the teardown / handshake calls
recorded as explicit effect values.
-/

/-- `ConnectionState` of the component:
"disconnected" | "connecting" | "connected" | "error". -/
inductive ConnState where
  | disconnected
  | connecting
  | connected
  | error
deriving DecidableEq

/-- The device handle; `gattConnected` models `device.gatt.connected`. -/
structure DeviceInfo where
  gattConnected : Bool
deriving DecidableEq

/-- The `useState` cells of `ScaleConnector` that the lifecycle touches. -/
structure ConnectorState where
  connectionState : ConnState
  device : Option DeviceInfo
  characteristic : Option Unit
  currentReading : Option ScaleReading
  error : Option String
  lastStableReading : Option ScaleReading
deriving DecidableEq

/-- Component state at mount. -/
def initialConnectorState : ConnectorState :=
  ⟨ConnState.disconnected, none, none, none, none, none⟩

/-- Teardown calls a lifecycle function performs:
`removeEventListener` on the characteristic and `gatt.disconnect()`. -/
structure TeardownEffects where
  removeListenerCalls : ℕ
  gattDisconnectCalls : ℕ
deriving DecidableEq

/-- `disconnect`: unsubscribe if a characteristic is held, close the GATT
link if the device reports it connected, then clear the session state
(`lastStableReading` is not cleared by the source). -/
def disconnect (st : ConnectorState) : ConnectorState × TeardownEffects :=
  let unsub := if st.characteristic.isSome then 1 else 0
  let gatt := if (st.device.map DeviceInfo.gattConnected).getD false then 1 else 0
  ({ st with
      connectionState := ConnState.disconnected
      device := none
      characteristic := none
      currentReading := none
      error := none }, ⟨unsub, gatt⟩)

/-- The `gattserverdisconnected` listener registered in
`connectToScaleDevice`: resets the session state without performing any
teardown call (it neither removes the value listener nor calls
`gatt.disconnect()`), and leaves `error` untouched. -/
def onGattServerDisconnected (st : ConnectorState) : ConnectorState × TeardownEffects :=
  ({ st with
      connectionState := ConnState.disconnected
      device := none
      characteristic := none
      currentReading := none }, ⟨0, 0⟩)

/-- The three awaited handshake steps of `connectToScaleDevice`, in the
order the source performs them. -/
inductive ConnectStep where
  | requestDevice
  | gattConnect
  | startNotifications
deriving DecidableEq

/-- Oracle for the transport: whether Web Bluetooth is available and how
each awaited step of the handshake resolves. -/
structure Transport where
  supported : Bool
  requestDevice : Except String DeviceInfo
  gattConnect : Except String Unit
  startNotifications : Except String Unit

/-- `connectToScaleDevice`: no guard on the current `connectionState`; set
"connecting", then `requestScaleDevice`, `connectToScale` (GATT connect +
service/characteristic resolution) and `startNotifications` in order, any
failure being caught into `error` + "error" state.  The second component
lists the handshake steps that were actually performed, in order. -/
def connectToScaleDevice (st : ConnectorState) (tr : Transport) :
    ConnectorState × List ConnectStep :=
  if tr.supported = false then
    ({ st with
        error := some "Web Bluetooth is not supported in this browser"
        connectionState := ConnState.error }, [])
  else
    let st1 := { st with connectionState := ConnState.connecting, error := none }
    match tr.requestDevice with
    | Except.error msg =>
      ({ st1 with error := some msg, connectionState := ConnState.error },
        [ConnectStep.requestDevice])
    | Except.ok dev =>
      let st2 := { st1 with device := some dev }
      match tr.gattConnect with
      | Except.error msg =>
        ({ st2 with error := some msg, connectionState := ConnState.error },
          [ConnectStep.requestDevice, ConnectStep.gattConnect])
      | Except.ok _ =>
        let st3 := { st2 with characteristic := some () }
        match tr.startNotifications with
        | Except.error msg =>
          ({ st3 with error := some msg, connectionState := ConnState.error },
            [ConnectStep.requestDevice, ConnectStep.gattConnect, ConnectStep.startNotifications])
        | Except.ok _ =>
          ({ st3 with connectionState := ConnState.connected },
            [ConnectStep.requestDevice, ConnectStep.gattConnect, ConnectStep.startNotifications])

/-- Is an `Except` a success? -/
def isOk {ε α : Type} : Except ε α → Bool
  | Except.ok _ => true
  | Except.error _ => false

/-!
`convertWeight` and the nutrition pipeline.  A JS number that may be `NaN`
(or an `undefined` about to enter arithmetic) is an `Option ℚ` with `none`
for `NaN`; multiplication, division and `Math.round` propagate it.
-/

/-- The `toGrams` conversion table of `convertWeight`: no entries for the
fluid units "ml" and "fl oz". -/
def toGrams : String → Option ℚ
  | "g" => some 1
  | "oz" => some (283495 / 10000)
  | "lb" => some (453592 / 1000)
  | "kg" => some 1000
  | _ => none

/-- The `fromGrams` conversion table of `convertWeight`. -/
def fromGrams : String → Option ℚ
  | "g" => some 1
  | "oz" => some (10000 / 283495)
  | "lb" => some (1000 / 453592)
  | "kg" => some (1 / 1000)
  | _ => none

/-- JS multiplication with `NaN`/`undefined` propagation. -/
def jsMul : Option ℚ → Option ℚ → Option ℚ
  | some a, some b => some (a * b)
  | _, _ => none

/-- JS division with `NaN`/`undefined` propagation. -/
def jsDiv : Option ℚ → Option ℚ → Option ℚ
  | some a, some b => some (a / b)
  | _, _ => none

/-- `Math.round` (half away from zero upward), propagating `NaN`. -/
def jsRound : Option ℚ → Option ℚ
  | some a => some ((⌊a + 1 / 2⌋ : ℤ) : ℚ)
  | none => none

/-- `Math.round(x * 10) / 10`, the one-decimal rounding used for the
per-nutrient values, propagating `NaN`. -/
def jsRound1 : Option ℚ → Option ℚ
  | some a => some (((⌊a * 10 + 1 / 2⌋ : ℤ) : ℚ) / 10)
  | none => none

/-- `convertWeight(weight, fromUnit, toUnit)`: identity when the unit
strings are equal, otherwise `weight * toGrams[fromUnit] * fromGrams[toUnit]`
with absent table entries producing `NaN`. -/
def convertWeight (weight : ℚ) (fromUnit toUnit : String) : Option ℚ :=
  if fromUnit = toUnit then
    some weight
  else
    jsMul (jsMul (some weight) (toGrams fromUnit)) (fromGrams toUnit)

/-- `Partial<NutritionData>` used for the per-100g base values of
`MOCK_NUTRITION_DATA`; absent optional fields are `none`. -/
structure PartialNutritionData where
  calories : Option ℚ := none
  protein : Option ℚ := none
  carbs : Option ℚ := none
  fat : Option ℚ := none
  fiber : Option ℚ := none
  sugar : Option ℚ := none
  sodium : Option ℚ := none
  calcium : Option ℚ := none
  iron : Option ℚ := none
  vitaminC : Option ℚ := none

/-- `MOCK_NUTRITION_DATA`, in `Object.entries` (insertion) order. -/
def MOCK_NUTRITION_DATA : List (String × PartialNutritionData) :=
  [("apple", { calories := some 52, protein := some 0.3, carbs := some 13.8,
               fat := some 0.2, fiber := some 2.4, sugar := some 10.4,
               vitaminC := some 4.6 }),
   ("banana", { calories := some 89, protein := some 1.1, carbs := some 22.8,
                fat := some 0.3, fiber := some 2.6, sugar := some 12.2,
                calcium := some 5 }),
   ("chicken breast", { calories := some 165, protein := some 31, carbs := some 0,
                        fat := some 3.6, fiber := some 0, sodium := some 74,
                        iron := some 0.7 }),
   ("rice", { calories := some 130, protein := some 2.7, carbs := some 28,
              fat := some 0.3, fiber := some 0.4, sodium := some 1,
              iron := some 0.8 }),
   ("broccoli", { calories := some 34, protein := some 2.8, carbs := some 6.6,
                  fat := some 0.4, fiber := some 2.6, vitaminC := some 89.2,
                  calcium := some 47 }),
   ("milk", { calories := some 42, protein := some 3.4, carbs := some 5,
              fat := some 1, fiber := some 0, calcium := some 113,
              sodium := some 44 })]

/-- Does the first character list start with the second? -/
def leadsWith : List Char → List Char → Bool
  | _, [] => true
  | [], _ :: _ => false
  | a :: as, b :: bs => (a == b) && leadsWith as bs

/-- Does the second list occur contiguously inside the first
(JS `String.includes` on the underlying characters)? -/
def occursIn : List Char → List Char → Bool
  | [], needle => needle.isEmpty
  | a :: rest, needle => leadsWith (a :: rest) needle || occursIn rest needle

/-- `s.includes(t)` for strings. -/
def includes (s t : String) : Bool := occursIn s.toList t.toList

/-- The default fallback entry of `getMockNutritionData`. -/
def defaultMockData : PartialNutritionData :=
  { calories := some 100, protein := some 2, carbs := some 15,
    fat := some 1, fiber := some 2 }

/-- `getMockNutritionData`: lower-case and trim the name, exact key match
first, then the first partial (substring either way) match, then the
default fallback. -/
def getMockNutritionData (ingredient : String) : PartialNutritionData :=
  let normalized := ingredient.toLower.trim
  match MOCK_NUTRITION_DATA.lookup normalized with
  | some data => data
  | none =>
    match MOCK_NUTRITION_DATA.find?
        (fun p => includes normalized p.1 || includes p.1 normalized) with
    | some p => p.2
    | none => defaultMockData

/-- `NutritionData` as produced by `calculateNutritionForWeight`: numeric
fields hold `none` when the JS value is `NaN`, optional nutrient fields
also when they are `undefined`. -/
structure NutritionData where
  ingredient : String
  weight : Option ℚ
  unit : String
  calories : Option ℚ
  protein : Option ℚ
  carbs : Option ℚ
  fat : Option ℚ
  fiber : Option ℚ
  sugar : Option ℚ
  sodium : Option ℚ
  calcium : Option ℚ
  iron : Option ℚ
  vitaminC : Option ℚ

/-- `baseData.x || 0`: an absent base value becomes 0 (0 is the only falsy
base number that occurs). -/
def orZero (x : Option ℚ) : ℚ := x.getD 0

/-- `baseData.x ? Math.round(baseData.x * factor * 10) / 10 : undefined`. -/
def optNutrient (base : Option ℚ) (factor : Option ℚ) : Option ℚ :=
  match base with
  | some q => if q = 0 then none else jsRound1 (jsMul (some q) factor)
  | none => none

/-- `calculateNutritionForWeight`: scale the per-100g base data by
`weightInGrams / 100`, rounding calories to an integer and the other
nutrients to one decimal. -/
def calculateNutritionForWeight (baseData : PartialNutritionData)
    (ingredient : String) (weightInGrams : Option ℚ) : NutritionData :=
  let factor := jsDiv weightInGrams (some 100)
  { ingredient := ingredient
    weight := weightInGrams
    unit := "g"
    calories := jsRound (jsMul (some (orZero baseData.calories)) factor)
    protein := jsRound1 (jsMul (some (orZero baseData.protein)) factor)
    carbs := jsRound1 (jsMul (some (orZero baseData.carbs)) factor)
    fat := jsRound1 (jsMul (some (orZero baseData.fat)) factor)
    fiber := optNutrient baseData.fiber factor
    sugar := optNutrient baseData.sugar factor
    sodium := optNutrient baseData.sodium factor
    calcium := optNutrient baseData.calcium factor
    iron := optNutrient baseData.iron factor
    vitaminC := optNutrient baseData.vitaminC factor }

/-- `fetchUSDANutrition`: the demo implementation always resolves `null`. -/
def fetchUSDANutrition (_ingredient : String) : Option PartialNutritionData := none

/-- `getNutritionData(ingredient, weight, unit)`: convert the weight to
grams, then scale the USDA data (always `null` here) or the mock data. -/
def getNutritionData (ingredient : String) (weight : ℚ) (unit : String) :
    NutritionData :=
  let weightInGrams := convertWeight weight unit "g"
  match fetchUSDANutrition ingredient with
  | some usdaData => calculateNutritionForWeight usdaData ingredient weightInGrams
  | none =>
    calculateNutritionForWeight (getMockNutritionData ingredient) ingredient weightInGrams

/-- Stable 100 g reading (first of the dedup scenario). -/
def stable100a : ScaleReading := ⟨100, ScaleUnit.g, true, 0⟩

/-- Stable 100 g reading observed again later: same `(weight, unit)` key. -/
def stable100b : ScaleReading := ⟨100, ScaleUnit.g, true, 1⟩

/-- Stable reading with a different weight. -/
def stable200 : ScaleReading := ⟨200, ScaleUnit.g, true, 2⟩

/-- A connected session (device bound, link up, characteristic held). -/
def activeState : ConnectorState :=
  { connectionState := ConnState.connected, device := some ⟨true⟩,
    characteristic := some (), currentReading := none, error := none,
    lastStableReading := none }

/-- Transport whose device chooser is dismissed by the user. -/
def cancelTransport : Transport :=
  { supported := true, requestDevice := Except.error "User cancelled",
    gattConnect := Except.ok (), startNotifications := Except.ok () }

/-- Transport on which every handshake step succeeds. -/
def okTransport : Transport :=
  { supported := true, requestDevice := Except.ok ⟨true⟩,
    gattConnect := Except.ok (), startNotifications := Except.ok () }

/-!
General lemmas about the embedded definitions, and evaluations of the
concrete frames.
-/

theorem decodeBody_eq (bs : List ℕ) (now : ℕ) :
    decodeBody bs now = Except.ok ((coreResult bs).map (fun c => c.withTime now)) := by
  by_cases h8 : bs.length = 8
  · simp [decodeBody, coreResult, h8]
  · by_cases h12 : bs.length = 12
    · simp only [decodeBody, coreResult, h8, if_false, h12, if_true]
      cases hm : method1Caught bs with
      | some c => simp [hm]
      | none =>
        cases hm2 : method2 bs <;> simp [hm, hm2]
    · simp [decodeBody, coreResult, h8, h12]

theorem parseScaleData_eq (bs : List ℕ) (now : ℕ) :
    parseScaleData bs now = (coreResult bs).map (fun c => c.withTime now) := by
  unfold parseScaleData
  rw [decodeBody_eq]
  split
  · have hc : coreResult bs = none := by
      unfold coreResult
      rw [if_neg (by omega), if_neg (by omega)]
    rw [hc]
    rfl
  · rfl

/-- Method 1 can never fire on a frame of the only length on which it is
attempted: `getUint16(11, true)` needs bytes 11 and 12, and byte 12 does
not exist in a 12-byte `DataView`, so the read raises `RangeError`. -/
theorem method1E_error_of_length12 (bs : List ℕ) (h : bs.length = 12) :
    method1E bs = Except.error () := by
  obtain ⟨b10, h10⟩ : ∃ b, bs[10]? = some b := ⟨_, List.getElem?_eq_getElem (by omega)⟩
  obtain ⟨b11, h11⟩ : ∃ b, bs[11]? = some b := ⟨_, List.getElem?_eq_getElem (by omega)⟩
  have h12 : bs[12]? = none := List.getElem?_eq_none (by omega)
  have hA : getUint8 bs 10 = Except.ok b10 := by
    unfold getUint8
    rw [h10]
  have hB : getUint16le bs 11 = Except.error () := by
    unfold getUint16le
    rw [h11, h12]
  simp only [method1E, hA, hB]

theorem method1Caught_of_length12 (bs : List ℕ) (h : bs.length = 12) :
    method1Caught bs = none := by
  unfold method1Caught
  rw [method1E_error_of_length12 bs h]

/-- `UNIT_MAP` with the source's `|| "g"` default never yields the pound or
kilogram strings, for any unit code at all. -/
theorem unitMap_mem (n : ℕ) :
    (UNIT_MAP n).getD ScaleUnit.g = ScaleUnit.g ∨
      (UNIT_MAP n).getD ScaleUnit.g = ScaleUnit.oz ∨
      (UNIT_MAP n).getD ScaleUnit.g = ScaleUnit.ml ∨
      (UNIT_MAP n).getD ScaleUnit.g = ScaleUnit.floz := by
  match n with
  | 0 => exact Or.inl rfl
  | 1 => exact Or.inr (Or.inl rfl)
  | 2 => exact Or.inl rfl
  | 3 => exact Or.inr (Or.inr (Or.inr rfl))
  | 4 => exact Or.inr (Or.inr (Or.inl rfl))
  | 5 => exact Or.inr (Or.inr (Or.inr rfl))
  | 6 => exact Or.inr (Or.inl rfl)
  | n + 7 => exact Or.inl rfl

theorem accept_some {w : ℚ} {u : ScaleUnit} {st : Bool} {c : ReadingCore}
    (h : (if 0 < w ∧ w ≤ 5000 then
            (Except.ok (some (⟨w, u, st⟩ : ReadingCore)) : Except Unit (Option ReadingCore))
          else Except.ok none) = Except.ok (some c)) :
    0 < c.weight ∧ c.weight ≤ 5000 ∧ c.unit = u := by
  split at h
  · rename_i hw
    rw [Except.ok.injEq, Option.some.injEq] at h
    subst h
    exact ⟨hw.1, hw.2, rfl⟩
  · exact absurd h (by simp)

/-- A candidate the Method 2 scan accepts satisfies the sanity bounds, and
its unit comes through `UNIT_MAP`, whose entries are only the
gram / ounce / milliliter / fluid-ounce strings. -/
theorem method2At_ok_some (bs : List ℕ) (offset : ℕ) (c : ReadingCore)
    (h : method2At bs offset = Except.ok (some c)) :
    0 < c.weight ∧ c.weight ≤ 5000 ∧
      (c.unit = ScaleUnit.g ∨ c.unit = ScaleUnit.oz ∨
        c.unit = ScaleUnit.ml ∨ c.unit = ScaleUnit.floz) := by
  simp only [method2At] at h
  split at h
  · exact absurd h (by simp)
  split at h
  · exact absurd h (by simp)
  split at h
  swap
  · exact absurd h (by simp)
  split at h
  · exact absurd h (by simp)
  split at h
  · exact absurd h (by simp)
  split at h
  all_goals
    obtain ⟨h1, h2, h3⟩ := accept_some h
    refine ⟨h1, h2, ?_⟩
    rw [h3]
    exact unitMap_mem _

theorem method2AtCaught_some (bs : List ℕ) (offset : ℕ) (c : ReadingCore)
    (h : method2AtCaught bs offset = some c) :
    method2At bs offset = Except.ok (some c) := by
  unfold method2AtCaught at h
  cases hm : method2At bs offset with
  | ok r =>
    rw [hm] at h
    exact congrArg Except.ok (show r = some c from h)
  | error e =>
    rw [hm] at h
    exact absurd (show (none : Option ReadingCore) = some c from h) (by simp)

theorem method2Scan_some (bs : List ℕ) (offs : List ℕ) (c : ReadingCore)
    (h : method2Scan bs offs = some c) :
    ∃ o ∈ offs, method2AtCaught bs o = some c := by
  induction offs with
  | nil => exact absurd h (by simp [method2Scan])
  | cons o rest ih =>
    unfold method2Scan at h
    cases ho : method2AtCaught bs o with
    | some r =>
      rw [ho] at h
      exact ⟨o, by simp, by rw [ho]; exact (show some r = some c from h)⟩
    | none =>
      rw [ho] at h
      obtain ⟨o2, ho1, ho2⟩ := ih (show method2Scan bs rest = some c from h)
      exact ⟨o2, by simp [ho1], ho2⟩

/-- Every reading the decoder can produce comes from the Method 2 scan and
satisfies its acceptance bounds. -/
theorem coreResult_some (bs : List ℕ) (c : ReadingCore)
    (h : coreResult bs = some c) :
    0 < c.weight ∧ c.weight ≤ 5000 ∧
      (c.unit = ScaleUnit.g ∨ c.unit = ScaleUnit.oz ∨
        c.unit = ScaleUnit.ml ∨ c.unit = ScaleUnit.floz) := by
  unfold coreResult at h
  split at h
  · exact absurd h (by simp)
  · split at h
    · rename_i h8 h12
      have hif : (if 12 ≤ bs.length then method1Caught bs else none) = none := by
        rw [if_pos (by omega : 12 ≤ bs.length)]
        exact method1Caught_of_length12 bs h12
      rw [hif] at h
      obtain ⟨o, _, ho⟩ := method2Scan_some bs (List.range (bs.length - 4 + 1)) c h
      exact method2At_ok_some bs o c (method2AtCaught_some bs o c ho)
    · exact absurd h (by simp)

theorem method2Scan_cons_none (bs : List ℕ) (o : ℕ) (rest : List ℕ)
    (h : method2AtCaught bs o = none) :
    method2Scan bs (o :: rest) = method2Scan bs rest := by
  conv_lhs => unfold method2Scan
  rw [h]

theorem method2Scan_cons_some (bs : List ℕ) (o : ℕ) (rest : List ℕ) (c : ReadingCore)
    (h : method2AtCaught bs o = some c) :
    method2Scan bs (o :: rest) = some c := by
  conv_lhs => unfold method2Scan
  rw [h]

/-- For a 12-byte frame the decoder's result is exactly the result of the
Method 2 scan: Method 1 always dies on its out-of-range 16-bit read. -/
theorem parse_of_method2 (bs : List ℕ) (now : ℕ) (h12 : bs.length = 12) :
    parseScaleData bs now = (method2 bs).map (fun c => c.withTime now) := by
  rw [parseScaleData_eq]
  have hc : coreResult bs = method2 bs := by
    unfold coreResult
    rw [if_neg (by omega), if_pos h12, if_pos (by omega : 12 ≤ bs.length),
      method1Caught_of_length12 bs h12]
  rw [hc]

/-- Frames whose length is not 12 always decode to `null`. -/
theorem parse_none_of_ne12 (bs : List ℕ) (now : ℕ) (h : bs.length ≠ 12) :
    parseScaleData bs now = none := by
  rw [parseScaleData_eq]
  have hc : coreResult bs = none := by
    unfold coreResult
    by_cases h8 : bs.length = 8
    · rw [if_pos h8]
    · rw [if_neg h8, if_neg h]
  rw [hc]
  rfl

theorem parse_frameA (now : ℕ) : parseScaleData frameA now = none := by
  rw [parse_of_method2 frameA now rfl]
  rfl

theorem method2At_frame5000_0 :
    method2At frame5000 0 = Except.ok (some ⟨5000, ScaleUnit.g, true⟩) := by
  have h : method2At frame5000 0 =
      (if 0 < (((1 : ℤ) : ℚ) * ((5000 : ℕ) : ℚ)) / 1 ∧
            (((1 : ℤ) : ℚ) * ((5000 : ℕ) : ℚ)) / 1 ≤ 5000 then
        Except.ok (some ⟨(((1 : ℤ) : ℚ) * ((5000 : ℕ) : ℚ)) / 1, ScaleUnit.g, true⟩)
       else Except.ok none) := rfl
  rw [h]
  norm_num

theorem method2_frame5000 : method2 frame5000 = some ⟨5000, ScaleUnit.g, true⟩ := by
  have h0 : method2AtCaught frame5000 0 = some ⟨5000, ScaleUnit.g, true⟩ := by
    unfold method2AtCaught
    rw [method2At_frame5000_0]
  show method2Scan frame5000 (List.range 9) = some ⟨5000, ScaleUnit.g, true⟩
  rw [show List.range 9 = 0 :: [1, 2, 3, 4, 5, 6, 7, 8] from rfl]
  exact method2Scan_cons_some _ _ _ _ h0

theorem parse_frame5000 (now : ℕ) :
    parseScaleData frame5000 now = some ⟨5000, ScaleUnit.g, true, now⟩ := by
  rw [parse_of_method2 frame5000 now rfl, method2_frame5000]
  rfl

theorem method2At_frame10000_1 : method2At frame10000 1 = Except.ok none := by
  have h : method2At frame10000 1 =
      (if 0 < (((-1 : ℤ) : ℚ) * ((4096 : ℕ) : ℚ)) / 1 ∧
            (((-1 : ℤ) : ℚ) * ((4096 : ℕ) : ℚ)) / 1 ≤ 5000 then
        Except.ok (some ⟨(((-1 : ℤ) : ℚ) * ((4096 : ℕ) : ℚ)) / 1, ScaleUnit.g, false⟩)
       else Except.ok none) := rfl
  rw [h]
  norm_num

theorem method2_frame10000 : method2 frame10000 = none := by
  have h1 : method2AtCaught frame10000 1 = none := by
    unfold method2AtCaught
    rw [method2At_frame10000_1]
  show method2Scan frame10000 (List.range 9) = none
  rw [show List.range 9 = 0 :: 1 :: [2, 3, 4, 5, 6, 7, 8] from rfl]
  rw [method2Scan_cons_none _ _ _ (show method2AtCaught frame10000 0 = none from rfl)]
  rw [method2Scan_cons_none _ _ _ h1]
  rfl

theorem parse_frame10000 (now : ℕ) : parseScaleData frame10000 now = none := by
  rw [parse_of_method2 frame10000 now rfl, method2_frame10000]
  rfl

theorem jsMul_none_left (y : Option ℚ) : jsMul none y = none := by
  cases y <;> rfl

theorem jsMul_none_right (x : Option ℚ) : jsMul x none = none := by
  cases x <;> rfl

theorem jsDiv_none_left (y : Option ℚ) : jsDiv none y = none := by
  cases y <;> rfl

/-!
The claims.
-/

/-- C1 (code bug): Strategy A (Method 1) can never extract anything from a
12-byte frame: its 16-bit little-endian read at offset 11 needs bytes 11
and 12, and offset 12 is past the end of the view, so the read raises
`RangeError` on every 12-byte frame and the branch falls through.  In
particular the frame built after the claim (sign byte `0x00` at offset 10,
low magnitude byte `0xDC` of 1500 at offset 11) decodes to `none`, not to
a `1500.0` gram reading. -/
theorem C1_strategyA_dead (bs : List ℕ) (h : bs.length = 12) :
    method1E bs = Except.error () ∧ parseScaleData frameA 0 = none :=
  ⟨method1E_error_of_length12 bs h, parse_frameA 0⟩

theorem C1_witness :
    frameA.length = 12 ∧
      (method1E frameA = Except.error () ∧ parseScaleData frameA 0 = none) :=
  ⟨rfl, C1_strategyA_dead frameA rfl⟩

/-- C2: decode is total with an optional result: on every byte sequence the
body inside the decoder's outer `try` finishes with a normal (non-thrown)
value, and that value is exactly the decoder's optional result — malformed
or ambiguous input yields `none`, never an escaped exception. -/
theorem C2_decode_total (bs : List ℕ) (now : ℕ) :
    decodeBody bs now = Except.ok (parseScaleData bs now) := by
  rw [decodeBody_eq, parseScaleData_eq]

/-- C3 counterexample: a Strategy B candidate whose resulting weight is
exactly 5000 is accepted, not rejected — the upper weight bound in the code
is `weight <= 5000`, closed. -/
theorem C3_counterexample :
    parseScaleData frame5000 0 = some ⟨5000, ScaleUnit.g, true, 0⟩ ∧
      parseScaleData frame5000 0 ≠ none := by
  refine ⟨parse_frame5000 0, ?_⟩
  rw [parse_frame5000 0]
  simp

/-- C3 (amended): Strategy B's raw 16-bit bound is open at the top — a raw
value of exactly 10000 is rejected, and `frame10000` (which offers no other
acceptable offset) decodes to `none` — but the resulting-weight bound is
closed: a weight of exactly 5000 is accepted.  (Strategy A's `50000` bound
is unreachable: the branch always dies on its out-of-range read.) -/
theorem C3_boundary_amended :
    parseScaleData frame10000 0 = none ∧
      parseScaleData frame5000 0 = some ⟨5000, ScaleUnit.g, true, 0⟩ :=
  ⟨parse_frame10000 0, parse_frame5000 0⟩

/-- C4: every frame whose length is not 12 decodes to `none` — lengths
below 3 are rejected up front, length 8 is the empty-scale heartbeat, and
every other length falls through the two length tests. -/
theorem C4_length_gate (bs : List ℕ) (now : ℕ) (h : bs.length ≠ 12) :
    parseScaleData bs now = none :=
  parse_none_of_ne12 bs now h

theorem C4_witness : frame8.length ≠ 12 ∧ parseScaleData frame8 0 = none :=
  ⟨by decide, C4_length_gate frame8 0 (by decide)⟩

/-- C5 counterexample: two invocations of decode on the same bytes do not
yield identical `Reading` values in all fields: the `timestamp` field is
`Date.now()` at decode time, so invocations at clock values 0 and 1
disagree. -/
theorem C5_counterexample :
    parseScaleData frame5000 0 ≠ parseScaleData frame5000 1 := by
  rw [parse_frame5000 0, parse_frame5000 1]
  simp

/-- C5 (amended): decoding is deterministic and side-effect-free up to the
clock: on the same bytes, two invocations either both yield `none` or both
yield readings with identical weight, unit and stability; the `timestamp`
field alone records the invocation's clock value. -/
theorem C5_deterministic (bs : List ℕ) (t1 t2 : ℕ) :
    (parseScaleData bs t1 = none ∧ parseScaleData bs t2 = none) ∨
      (∃ r1 r2, parseScaleData bs t1 = some r1 ∧ parseScaleData bs t2 = some r2 ∧
        r1.weight = r2.weight ∧ r1.unit = r2.unit ∧ r1.isStable = r2.isStable ∧
        r1.timestamp = t1 ∧ r2.timestamp = t2) := by
  rw [parseScaleData_eq bs t1, parseScaleData_eq bs t2]
  cases hc : coreResult bs with
  | none => exact Or.inl ⟨rfl, rfl⟩
  | some c =>
    exact Or.inr ⟨c.withTime t1, c.withTime t2, rfl, rfl, rfl, rfl, rfl, rfl, rfl⟩

/-- C6 (code bug): the dedup never applies in the running program.  The
`characteristicvaluechanged` listener is attached exactly once, at connect,
and its closure captures the `lastStableReading` of that render — `null`
on a fresh connect; the new closure `useCallback` produces when
`setLastStableReading` changes the dep is never re-attached.  The handler
therefore always compares against the frozen `null` snapshot, so every
stable reading fires the "new stable reading" notification: two
consecutive stable readings with identical `(weight, unit)` fire twice —
not once, as the claim (and the handler's own dedup comment) require —
and the three-reading scenario fires three times, not twice. -/
theorem C6_dedup_defeated (st : ClassifierState) (r : ScaleReading)
    (h : r.isStable = true) :
    (observeReading none st r).2 = some r ∧
    (runClassifier none initialClassifierState [stable100a, stable100b]).2 =
      [stable100a, stable100b] ∧
    (runClassifier none initialClassifierState [stable100a, stable100b, stable200]).2 =
      [stable100a, stable100b, stable200] := by
  refine ⟨?_, by decide, by decide⟩
  unfold observeReading
  rw [h]
  simp [keyDiffers]

theorem C6_witness :
    stable100a.isStable = true ∧
      ((observeReading none initialClassifierState stable100a).2 = some stable100a ∧
        (runClassifier none initialClassifierState [stable100a, stable100b]).2 =
          [stable100a, stable100b] ∧
        (runClassifier none initialClassifierState [stable100a, stable100b, stable200]).2 =
          [stable100a, stable100b, stable200]) :=
  ⟨rfl, C6_dedup_defeated initialClassifierState stable100a rfl⟩

/-- C7: disconnect is idempotent: after a `disconnect()` the characteristic
and device cells are `null`, so a second `disconnect()` changes nothing and
performs zero teardown calls; and the `gattserverdisconnected` callback
arriving after an explicit `disconnect()` leaves the state exactly as it
was (disconnected) and performs no teardown call either. -/
theorem C7_disconnect_idempotent (st : ConnectorState) :
    (disconnect (disconnect st).1).1 = (disconnect st).1 ∧
    (disconnect (disconnect st).1).2 = ⟨0, 0⟩ ∧
    (disconnect st).1.connectionState = ConnState.disconnected ∧
    (onGattServerDisconnected (disconnect st).1).1 = (disconnect st).1 ∧
    (onGattServerDisconnected (disconnect st).1).2 = ⟨0, 0⟩ := by
  unfold disconnect onGattServerDisconnected
  simp

/-- C8 counterexample: `connectToScaleDevice` has no state guard: invoked
while connected (Active) with a supported transport whose chooser is then
cancelled, it transitions the state (to "error"), rather than being a no-op
returning the current status. -/
theorem C8_counterexample :
    (connectToScaleDevice activeState cancelTransport).1.connectionState ≠
      activeState.connectionState := by decide

/-- C8 (amended): `connect()` applies no state guard — invoked in any state
it restarts the handshake — but the reachability half of the claim holds:
the connected (Active) state results exactly when the transport is
supported and device request, GATT connection and notification subscription
all succeed, and in that case the three steps are performed in exactly that
order. -/
theorem C8_connect_amended (st : ConnectorState) (tr : Transport) :
    ((connectToScaleDevice st tr).1.connectionState = ConnState.connected ↔
      (tr.supported = true ∧ isOk tr.requestDevice = true ∧
        isOk tr.gattConnect = true ∧ isOk tr.startNotifications = true)) ∧
    ((connectToScaleDevice st tr).1.connectionState = ConnState.connected →
      (connectToScaleDevice st tr).2 =
        [ConnectStep.requestDevice, ConnectStep.gattConnect, ConnectStep.startNotifications]) := by
  obtain ⟨sup, rd, gc, sn⟩ := tr
  cases sup <;> cases rd <;> cases gc <;> cases sn <;>
    simp [connectToScaleDevice, isOk]

theorem C8_witness :
    (connectToScaleDevice initialConnectorState okTransport).2 =
      [ConnectStep.requestDevice, ConnectStep.gattConnect, ConnectStep.startNotifications] := by
  have h := C8_connect_amended initialConnectorState okTransport
  exact h.2 (by decide)

/-- C9: whenever the decoder produces a reading, its weight lies in
`(0, 5000]` and its unit is gram, ounce, milliliter or fluid ounce — never
pound or kilogram — because only the Method 2 scan can produce a result
(Method 1 always dies on its out-of-range read) and the scan's acceptance
filter enforces these bounds with units drawn from `UNIT_MAP`. -/
theorem C9_decoded_invariant (bs : List ℕ) (now : ℕ) (r : ScaleReading)
    (h : parseScaleData bs now = some r) :
    0 < r.weight ∧ r.weight ≤ 5000 ∧
      (r.unit = ScaleUnit.g ∨ r.unit = ScaleUnit.oz ∨
        r.unit = ScaleUnit.ml ∨ r.unit = ScaleUnit.floz) := by
  rw [parseScaleData_eq] at h
  cases hc : coreResult bs with
  | none =>
    rw [hc] at h
    exact absurd h (by simp)
  | some c =>
    rw [hc] at h
    obtain ⟨h1, h2, h3⟩ := coreResult_some bs c hc
    have hr : c.withTime now = r := by simpa using h
    subst hr
    exact ⟨h1, h2, h3⟩

theorem C9_witness :
    0 < (⟨5000, ScaleUnit.g, true, 0⟩ : ScaleReading).weight ∧
      (⟨5000, ScaleUnit.g, true, 0⟩ : ScaleReading).weight ≤ 5000 ∧
      ((⟨5000, ScaleUnit.g, true, 0⟩ : ScaleReading).unit = ScaleUnit.g ∨
        (⟨5000, ScaleUnit.g, true, 0⟩ : ScaleReading).unit = ScaleUnit.oz ∨
        (⟨5000, ScaleUnit.g, true, 0⟩ : ScaleReading).unit = ScaleUnit.ml ∨
        (⟨5000, ScaleUnit.g, true, 0⟩ : ScaleReading).unit = ScaleUnit.floz) :=
  C9_decoded_invariant frame5000 0 ⟨5000, ScaleUnit.g, true, 0⟩ (parse_frame5000 0)

/-- C10: `convertWeight` is the identity when source and target units are
equal; for distinct units it yields `NaN` whenever either unit is "ml" or
"fl oz" (the conversion tables have no fluid entries); and
`getNutritionData` invoked with a fluid-unit reading computes its gram
weight and every mandatory nutrient value from that `NaN`. -/
theorem C10_fluid_units (w : ℚ) (u u1 u2 v nm : String)
    (h12 : u1 ≠ u2)
    (hf : u1 = "ml" ∨ u1 = "fl oz" ∨ u2 = "ml" ∨ u2 = "fl oz")
    (hv : v = "ml" ∨ v = "fl oz") :
    convertWeight w u u = some w ∧
    convertWeight w u1 u2 = none ∧
    (getNutritionData nm w v).weight = none ∧
    (getNutritionData nm w v).calories = none ∧
    (getNutritionData nm w v).protein = none ∧
    (getNutritionData nm w v).carbs = none ∧
    (getNutritionData nm w v).fat = none := by
  have hid : convertWeight w u u = some w := by simp [convertWeight]
  have hfl : convertWeight w u1 u2 = none := by
    unfold convertWeight
    rw [if_neg h12]
    rcases hf with h | h | h | h
    · subst h
      rw [show toGrams "ml" = none from rfl, jsMul_none_right, jsMul_none_left]
    · subst h
      rw [show toGrams "fl oz" = none from rfl, jsMul_none_right, jsMul_none_left]
    · subst h
      rw [show fromGrams "ml" = none from rfl, jsMul_none_right]
    · subst h
      rw [show fromGrams "fl oz" = none from rfl, jsMul_none_right]
  have hvg : convertWeight w v "g" = none := by
    unfold convertWeight
    rcases hv with h | h <;> subst h
    · rw [if_neg (by decide), show toGrams "ml" = none from rfl, jsMul_none_right,
        jsMul_none_left]
    · rw [if_neg (by decide), show toGrams "fl oz" = none from rfl, jsMul_none_right,
        jsMul_none_left]
  refine ⟨hid, hfl, ?_, ?_, ?_, ?_, ?_⟩ <;>
    simp [getNutritionData, fetchUSDANutrition, calculateNutritionForWeight, hvg,
      jsDiv_none_left, jsMul_none_right, jsRound, jsRound1]

theorem C10_witness :
    convertWeight 5 "g" "g" = some 5 ∧
    convertWeight 5 "ml" "g" = none ∧
    (getNutritionData "apple" 5 "ml").weight = none ∧
    (getNutritionData "apple" 5 "ml").calories = none ∧
    (getNutritionData "apple" 5 "ml").protein = none ∧
    (getNutritionData "apple" 5 "ml").carbs = none ∧
    (getNutritionData "apple" 5 "ml").fat = none :=
  C10_fluid_units 5 "g" "ml" "g" "ml" "apple" (by decide) (Or.inl rfl) (Or.inl rfl)

end SmartScale
